import Mathlib

set_option maxHeartbeats 2000000
set_option maxRecDepth 100000

/-!
Verification development for the HMMA238 teaching-notebook repository.

The repository consists of two notebook-style scripts,
`Courses/Pandas/Pandas.py` and `Courses/TimeMemory/TempsMemoire.py`.
We give a shallow embedding in two parts:

1. a statement-level abstract syntax for the notebook cells of both
   scripts, together with the full translation of every statement of the
   two files (`pandasScript`, `tempsScript`), over which script-shape
   properties (absence of exception handlers, linear control flow,
   input/output channels, mutation of shared state, authored loops and
   arithmetic) become decidable computations;

2. direct functional embeddings of the three pieces of the scripts whose
   value-level behaviour the claims discuss: `blobl_func`,
   `illustrate_pdb` and the hour-column conversion of the air-quality
   preprocessing.

Conventions of the embedding: string literals are carried without their
quote characters; numeric literals are carried verbatim as text; Python
floats are modelled by exact rationals where a value is needed (the only
value-level facts proved about them do not depend on rounding).
-/

namespace Py

/-- Expressions of the embedded notebook scripts.  Literal constants are
carried as their source text without quote characters. -/
inductive Expr : Type where
  | lit (text : String)
  | var (name : String)
  | attr (recv : Expr) (field : String)
  | index (recv : Expr) (key : Expr)
  | sliceIdx (recv : Expr) (lo hi : String)
  | binop (op : String) (lhs rhs : Expr)
  | call (callee : Expr) (args : List Expr)
  | kw (name : String) (value : Expr)
  | tuple (elems : List Expr)
  | listE (elems : List Expr)
  | dictE (pairs : List Expr)
  | lam (param : String) (body : Expr)
  | fstring (parts : List Expr)

/-- Statements of the embedded notebook scripts.  The grammar also has
constructors for statement forms the scripts never use (class
definitions, try/except), so that their absence is a statement about the
translated scripts rather than about the grammar. -/
inductive Stmt : Type where
  | sExpr (e : Expr)
  | assign (name : String) (e : Expr)
  | tupleAssign (names : List String) (e : Expr)
  | indexAssign (target : Expr) (key : Expr) (e : Expr)
  | attrAssign (target : Expr) (field : String) (e : Expr)
  | augAssign (name op : String) (e : Expr)
  | delIndex (target : Expr) (key : Expr)
  | funcDef (name : String) (params : List String) (body : List Stmt)
  | classDef (name : String) (body : List Stmt)
  | ifElse (cond : Expr) (thenB elseB : List Stmt)
  | forLoop (v : String) (iter : Expr) (body : List Stmt)
  | withStmt (ctx : Expr) (asName : String) (body : List Stmt)
  | tryExcept (body handler : List Stmt)
  | ret (e : Expr)
  | importM (module asAlias : String)
  | importFrom (module name : String)
  | magic (text : String)

/-- Input/output channels a step of the scripts can cross. -/
inductive Eff : Type where
  | fileRead
  | fileWrite
  | urlDownload
  | netQuery
  | display
  | consoleInput
deriving DecidableEq, Repr

/-- Dotted source name of a callee expression, e.g. `pd.read_csv`. -/
def Expr.dotted : Expr → String
  | .var n => n
  | .attr r f => r.dotted ++ "." ++ f
  | .call c _ => c.dotted ++ "()"
  | _ => "_"

/-- Root script variable of an assignment target or method receiver. -/
def Expr.rootVar : Expr → String
  | .var n => n
  | .attr r _ => r.rootVar
  | .index r _ => r.rootVar
  | .sliceIdx r _ _ => r.rootVar
  | .call c _ => c.rootVar
  | _ => "_"

/-- Channel classification of the library calls the scripts make, keyed
by the callee's dotted source name.  `download` fetches a fixed URL and
writes the result to a local file; `ox.graph_from_place` queries the
OpenStreetMap Overpass API (and caches the response to disk, the script
having set `use_cache=True`); `ox.utils.geocode` queries the Nominatim
geocoding API; `pdb.set_trace` suspends execution and reads commands
from the console; `fr_chart.render_in_browser` writes an HTML file and
opens it in a browser.  Calls that only build in-memory objects or
figures are not classified. -/
def effectsOfCallee : String → List Eff
  | "download" => [.urlDownload, .fileWrite]
  | "open" => [.fileRead]
  | "print" => [.display]
  | "interact" => [.display]
  | "pd.read_csv" => [.fileRead]
  | "json.load" => [.fileRead]
  | "geopandas.read_file" => [.fileRead]
  | "plt.show" => [.display]
  | "nx.draw_networkx" => [.display]
  | "ox.plot_graph" => [.display]
  | "ox.plot_graph_route" => [.display]
  | "ox.plot_route_folium" => [.display]
  | "ox.graph_from_place" => [.netQuery, .fileWrite]
  | "ox.utils.geocode" => [.netQuery]
  | "pdb.set_trace" => [.consoleInput]
  | "fr_chart.render_in_browser" => [.fileWrite, .display]
  | "get_ipython().system" => [.fileRead, .display]
  | "get_ipython().run_cell_magic" => [.display]
  | _ => []

/-- Channel classification of the notebook magic lines: the one shell
escape reads a local CSV file and prints it; the `%timeit` magics only
re-run in-memory numpy statements. -/
def effectsOfMagic : String → List Eff
  | "!head -26 ./20080421_20160927-PA13_auto.csv" => [.fileRead, .display]
  | _ => []

/-- Method names whose call mutates the receiver object in place. -/
def mutMethodNames : List String := ["add_edge", "add_child", "add"]

/-- Library-global configuration setters the scripts call, keyed by the
callee's dotted source name, each mapped to the module-level resource it
mutates: `sns.set_palette` sets the seaborn global palette that later
plotting steps read, and `ox.utils.config(use_cache=True)` sets osmnx
global settings that the later `ox.graph_from_place` download reads.
These are the call-level analogues of the `pd.options` attribute
assignments.  Calls that only build in-memory objects or figures —
including the pyplot current-figure state threaded between the
consecutive plotting statements of one cell — set no library-global
configuration. -/
def globalConfigResource : String → Option String
  | "sns.set_palette" => some "sns.palette"
  | "ox.utils.config" => some "ox.settings"
  | _ => none

/-- Whether an argument list carries `inplace=True`. -/
def hasInplaceTrue : List Expr → Bool
  | [] => false
  | .kw "inplace" (.lit "True") :: _ => true
  | _ :: rest => hasInplaceTrue rest

/-- Arithmetic operators (as opposed to comparisons and identity tests). -/
def arithOps : List String := ["+", "-", "*", "/", "**", "%"]

mutual
/-- Script variables read by an expression. -/
def Expr.readVars : Expr → List String
  | .lit _ => []
  | .var n => [n]
  | .attr r _ => r.readVars
  | .index r k => r.readVars ++ k.readVars
  | .sliceIdx r _ _ => r.readVars
  | .binop _ l r => l.readVars ++ r.readVars
  | .call c args => c.readVars ++ Expr.readVarsList args
  | .kw _ v => v.readVars
  | .tuple es => Expr.readVarsList es
  | .listE es => Expr.readVarsList es
  | .dictE es => Expr.readVarsList es
  | .lam _ b => b.readVars
  | .fstring es => Expr.readVarsList es

def Expr.readVarsList : List Expr → List String
  | [] => []
  | e :: es => e.readVars ++ Expr.readVarsList es
end

mutual
/-- Input/output channels crossed by the calls inside an expression. -/
def Expr.effs : Expr → List Eff
  | .lit _ => []
  | .var _ => []
  | .attr r _ => r.effs
  | .index r k => r.effs ++ k.effs
  | .sliceIdx r _ _ => r.effs
  | .binop _ l r => l.effs ++ r.effs
  | .call c args => effectsOfCallee c.dotted ++ c.effs ++ Expr.effsList args
  | .kw _ v => v.effs
  | .tuple es => Expr.effsList es
  | .listE es => Expr.effsList es
  | .dictE es => Expr.effsList es
  | .lam _ b => b.effs
  | .fstring es => Expr.effsList es

def Expr.effsList : List Expr → List Eff
  | [] => []
  | e :: es => e.effs ++ Expr.effsList es
end

mutual
/-- Dotted callee names, inside an expression, whose call crosses the
given channel. -/
def Expr.callersOf (eff : Eff) : Expr → List String
  | .lit _ => []
  | .var _ => []
  | .attr r _ => r.callersOf eff
  | .index r k => r.callersOf eff ++ k.callersOf eff
  | .sliceIdx r _ _ => r.callersOf eff
  | .binop _ l r => l.callersOf eff ++ r.callersOf eff
  | .call c args =>
      (if (effectsOfCallee c.dotted).contains eff then [c.dotted] else [])
        ++ c.callersOf eff ++ Expr.callersOfList eff args
  | .kw _ v => v.callersOf eff
  | .tuple es => Expr.callersOfList eff es
  | .listE es => Expr.callersOfList eff es
  | .dictE es => Expr.callersOfList eff es
  | .lam _ b => b.callersOf eff
  | .fstring es => Expr.callersOfList eff es

def Expr.callersOfList (eff : Eff) : List Expr → List String
  | [] => []
  | e :: es => e.callersOf eff ++ Expr.callersOfList eff es
end

mutual
/-- Shared state an expression mutates through a call: the receiver of
a method call that carries `inplace=True` or is a recognised mutating
method, and the module-level resource of a library-global configuration
setter. -/
def Expr.mutCalls : Expr → List String
  | .call (.attr recv m) args =>
      (globalConfigResource (recv.dotted ++ "." ++ m)).toList
        ++ (if hasInplaceTrue args || mutMethodNames.contains m
            then [recv.rootVar] else [])
        ++ recv.mutCalls ++ Expr.mutCallsList args
  | .call c args =>
      (globalConfigResource c.dotted).toList
        ++ c.mutCalls ++ Expr.mutCallsList args
  | .lit _ => []
  | .var _ => []
  | .attr r _ => r.mutCalls
  | .index r k => r.mutCalls ++ k.mutCalls
  | .sliceIdx r _ _ => r.mutCalls
  | .binop _ l r => l.mutCalls ++ r.mutCalls
  | .kw _ v => v.mutCalls
  | .tuple es => Expr.mutCallsList es
  | .listE es => Expr.mutCallsList es
  | .dictE es => Expr.mutCallsList es
  | .lam _ b => b.mutCalls
  | .fstring es => Expr.mutCallsList es

def Expr.mutCallsList : List Expr → List String
  | [] => []
  | e :: es => e.mutCalls ++ Expr.mutCallsList es
end

mutual
/-- Number of arithmetic binary operators and arithmetic augmented
assignments inside an expression. -/
def Expr.arithCount : Expr → Nat
  | .lit _ => 0
  | .var _ => 0
  | .attr r _ => r.arithCount
  | .index r k => r.arithCount + k.arithCount
  | .sliceIdx r _ _ => r.arithCount
  | .binop op l r =>
      (if arithOps.contains op then 1 else 0) + l.arithCount + r.arithCount
  | .call c args => c.arithCount + Expr.arithCountList args
  | .kw _ v => v.arithCount
  | .tuple es => Expr.arithCountList es
  | .listE es => Expr.arithCountList es
  | .dictE es => Expr.arithCountList es
  | .lam _ b => b.arithCount
  | .fstring es => Expr.arithCountList es

def Expr.arithCountList : List Expr → Nat
  | [] => 0
  | e :: es => e.arithCount + Expr.arithCountList es
end

mutual
/-- Script variables read anywhere in a statement, bodies included. -/
def Stmt.readsOf : Stmt → List String
  | .sExpr e => e.readVars
  | .assign _ e => e.readVars
  | .tupleAssign _ e => e.readVars
  | .indexAssign t k e => t.readVars ++ k.readVars ++ e.readVars
  | .attrAssign t _ e => t.readVars ++ e.readVars
  | .augAssign n _ e => n :: e.readVars
  | .delIndex t k => t.readVars ++ k.readVars
  | .funcDef _ _ body => Stmt.readsOfList body
  | .classDef _ body => Stmt.readsOfList body
  | .ifElse c tB eB => c.readVars ++ Stmt.readsOfList tB ++ Stmt.readsOfList eB
  | .forLoop _ it body => it.readVars ++ Stmt.readsOfList body
  | .withStmt c _ body => c.readVars ++ Stmt.readsOfList body
  | .tryExcept b h => Stmt.readsOfList b ++ Stmt.readsOfList h
  | .ret e => e.readVars
  | .importM _ _ => []
  | .importFrom _ _ => []
  | .magic _ => []

def Stmt.readsOfList : List Stmt → List String
  | [] => []
  | s :: ss => s.readsOf ++ Stmt.readsOfList ss
end

mutual
/-- Shared state a statement mutates: in-place index/attribute/del
assignments on objects, augmented assignments, in-place method calls,
and library-global configuration calls.  Plain `name = value`
statements rebind a script variable and are not counted as mutation. -/
def Stmt.mutsOf : Stmt → List String
  | .sExpr e => e.mutCalls
  | .assign _ e => e.mutCalls
  | .tupleAssign _ e => e.mutCalls
  | .indexAssign t k e => t.rootVar :: (t.mutCalls ++ k.mutCalls ++ e.mutCalls)
  | .attrAssign t f e => (t.dotted ++ "." ++ f) :: e.mutCalls
  | .augAssign n _ e => n :: e.mutCalls
  | .delIndex t _ => [t.rootVar]
  | .funcDef _ _ body => Stmt.mutsOfList body
  | .classDef _ body => Stmt.mutsOfList body
  | .ifElse c tB eB => c.mutCalls ++ Stmt.mutsOfList tB ++ Stmt.mutsOfList eB
  | .forLoop _ it body => it.mutCalls ++ Stmt.mutsOfList body
  | .withStmt c _ body => c.mutCalls ++ Stmt.mutsOfList body
  | .tryExcept b h => Stmt.mutsOfList b ++ Stmt.mutsOfList h
  | .ret e => e.mutCalls
  | .importM _ _ => []
  | .importFrom _ _ => []
  | .magic _ => []

def Stmt.mutsOfList : List Stmt → List String
  | [] => []
  | s :: ss => s.mutsOf ++ Stmt.mutsOfList ss
end

mutual
/-- Input/output channels crossed by a statement, bodies included. -/
def Stmt.effsOf : Stmt → List Eff
  | .sExpr e => e.effs
  | .assign _ e => e.effs
  | .tupleAssign _ e => e.effs
  | .indexAssign t k e => t.effs ++ k.effs ++ e.effs
  | .attrAssign t _ e => t.effs ++ e.effs
  | .augAssign _ _ e => e.effs
  | .delIndex t k => t.effs ++ k.effs
  | .funcDef _ _ body => Stmt.effsOfList body
  | .classDef _ body => Stmt.effsOfList body
  | .ifElse c tB eB => c.effs ++ Stmt.effsOfList tB ++ Stmt.effsOfList eB
  | .forLoop _ it body => it.effs ++ Stmt.effsOfList body
  | .withStmt c _ body => c.effs ++ Stmt.effsOfList body
  | .tryExcept b h => Stmt.effsOfList b ++ Stmt.effsOfList h
  | .ret e => e.effs
  | .importM _ _ => []
  | .importFrom _ _ => []
  | .magic t => effectsOfMagic t

def Stmt.effsOfList : List Stmt → List Eff
  | [] => []
  | s :: ss => s.effsOf ++ Stmt.effsOfList ss
end

mutual
/-- Dotted callee names, inside a statement, crossing the given channel. -/
def Stmt.callersOf (eff : Eff) : Stmt → List String
  | .sExpr e => e.callersOf eff
  | .assign _ e => e.callersOf eff
  | .tupleAssign _ e => e.callersOf eff
  | .indexAssign t k e => t.callersOf eff ++ k.callersOf eff ++ e.callersOf eff
  | .attrAssign t _ e => t.callersOf eff ++ e.callersOf eff
  | .augAssign _ _ e => e.callersOf eff
  | .delIndex t k => t.callersOf eff ++ k.callersOf eff
  | .funcDef _ _ body => Stmt.callersOfList eff body
  | .classDef _ body => Stmt.callersOfList eff body
  | .ifElse c tB eB =>
      c.callersOf eff ++ Stmt.callersOfList eff tB ++ Stmt.callersOfList eff eB
  | .forLoop _ it body => it.callersOf eff ++ Stmt.callersOfList eff body
  | .withStmt c _ body => c.callersOf eff ++ Stmt.callersOfList eff body
  | .tryExcept b h => Stmt.callersOfList eff b ++ Stmt.callersOfList eff h
  | .ret e => e.callersOf eff
  | .importM _ _ => []
  | .importFrom _ _ => []
  | .magic _ => []

def Stmt.callersOfList (eff : Eff) : List Stmt → List String
  | [] => []
  | s :: ss => s.callersOf eff ++ Stmt.callersOfList eff ss
end

mutual
/-- Number of `for` loops in a statement, function bodies included. -/
def Stmt.loopCount : Stmt → Nat
  | .funcDef _ _ body => Stmt.loopCountList body
  | .classDef _ body => Stmt.loopCountList body
  | .ifElse _ tB eB => Stmt.loopCountList tB + Stmt.loopCountList eB
  | .forLoop _ _ body => 1 + Stmt.loopCountList body
  | .withStmt _ _ body => Stmt.loopCountList body
  | .tryExcept b h => Stmt.loopCountList b + Stmt.loopCountList h
  | _ => 0

def Stmt.loopCountList : List Stmt → Nat
  | [] => 0
  | s :: ss => s.loopCount + Stmt.loopCountList ss
end

mutual
/-- Number of `for` loops a linear top-to-bottom run of the script
reaches directly, i.e. not counting loops inside function bodies. -/
def Stmt.topLoopCount : Stmt → Nat
  | .funcDef _ _ _ => 0
  | .classDef _ _ => 0
  | .ifElse _ tB eB => Stmt.topLoopCountList tB + Stmt.topLoopCountList eB
  | .forLoop _ _ body => 1 + Stmt.topLoopCountList body
  | .withStmt _ _ body => Stmt.topLoopCountList body
  | .tryExcept b h => Stmt.topLoopCountList b + Stmt.topLoopCountList h
  | _ => 0

def Stmt.topLoopCountList : List Stmt → Nat
  | [] => 0
  | s :: ss => s.topLoopCount + Stmt.topLoopCountList ss
end

mutual
/-- Number of `if`/`else` statements in a statement, bodies included. -/
def Stmt.ifCount : Stmt → Nat
  | .funcDef _ _ body => Stmt.ifCountList body
  | .classDef _ body => Stmt.ifCountList body
  | .ifElse _ tB eB => 1 + Stmt.ifCountList tB + Stmt.ifCountList eB
  | .forLoop _ _ body => Stmt.ifCountList body
  | .withStmt _ _ body => Stmt.ifCountList body
  | .tryExcept b h => Stmt.ifCountList b + Stmt.ifCountList h
  | _ => 0

def Stmt.ifCountList : List Stmt → Nat
  | [] => 0
  | s :: ss => s.ifCount + Stmt.ifCountList ss
end

mutual
/-- Number of `try`/`except` statements in a statement, bodies included. -/
def Stmt.tryCount : Stmt → Nat
  | .funcDef _ _ body => Stmt.tryCountList body
  | .classDef _ body => Stmt.tryCountList body
  | .ifElse _ tB eB => Stmt.tryCountList tB + Stmt.tryCountList eB
  | .forLoop _ _ body => Stmt.tryCountList body
  | .withStmt _ _ body => Stmt.tryCountList body
  | .tryExcept b h => 1 + Stmt.tryCountList b + Stmt.tryCountList h
  | _ => 0

def Stmt.tryCountList : List Stmt → Nat
  | [] => 0
  | s :: ss => s.tryCount + Stmt.tryCountList ss
end

mutual
/-- Number of class definitions in a statement, bodies included. -/
def Stmt.classCount : Stmt → Nat
  | .funcDef _ _ body => Stmt.classCountList body
  | .classDef _ body => 1 + Stmt.classCountList body
  | .ifElse _ tB eB => Stmt.classCountList tB + Stmt.classCountList eB
  | .forLoop _ _ body => Stmt.classCountList body
  | .withStmt _ _ body => Stmt.classCountList body
  | .tryExcept b h => Stmt.classCountList b + Stmt.classCountList h
  | _ => 0

def Stmt.classCountList : List Stmt → Nat
  | [] => 0
  | s :: ss => s.classCount + Stmt.classCountList ss
end

mutual
/-- Arithmetic operations appearing anywhere in a statement: arithmetic
binary operators plus arithmetic augmented assignments. -/
def Stmt.arithCount : Stmt → Nat
  | .sExpr e => e.arithCount
  | .assign _ e => e.arithCount
  | .tupleAssign _ e => e.arithCount
  | .indexAssign t k e => t.arithCount + k.arithCount + e.arithCount
  | .attrAssign t _ e => t.arithCount + e.arithCount
  | .augAssign _ op e =>
      (if arithOps.contains op then 1 else 0) + e.arithCount
  | .delIndex t k => t.arithCount + k.arithCount
  | .funcDef _ _ body => Stmt.arithCountList body
  | .classDef _ body => Stmt.arithCountList body
  | .ifElse c tB eB =>
      c.arithCount + Stmt.arithCountList tB + Stmt.arithCountList eB
  | .forLoop _ it body => it.arithCount + Stmt.arithCountList body
  | .withStmt c _ body => c.arithCount + Stmt.arithCountList body
  | .tryExcept b h => Stmt.arithCountList b + Stmt.arithCountList h
  | .ret e => e.arithCount
  | .importM _ _ => 0
  | .importFrom _ _ => 0
  | .magic _ => 0

def Stmt.arithCountList : List Stmt → Nat
  | [] => 0
  | s :: ss => s.arithCount + Stmt.arithCountList ss
end

mutual
/-- Names of the functions a statement defines (nested ones included)
whose body contains a loop or an arithmetic operation of its own. -/
def Stmt.ownComputeFuncs : Stmt → List String
  | .funcDef n _ body =>
      (if Stmt.loopCountList body + Stmt.arithCountList body > 0
       then [n] else []) ++ Stmt.ownComputeFuncsList body
  | .classDef _ body => Stmt.ownComputeFuncsList body
  | .ifElse _ tB eB =>
      Stmt.ownComputeFuncsList tB ++ Stmt.ownComputeFuncsList eB
  | .forLoop _ _ body => Stmt.ownComputeFuncsList body
  | .withStmt _ _ body => Stmt.ownComputeFuncsList body
  | .tryExcept b h => Stmt.ownComputeFuncsList b ++ Stmt.ownComputeFuncsList h
  | _ => []

def Stmt.ownComputeFuncsList : List Stmt → List String
  | [] => []
  | s :: ss => s.ownComputeFuncs ++ Stmt.ownComputeFuncsList ss
end

mutual
/-- Names of all functions a statement defines, nested ones included. -/
def Stmt.funcNames : Stmt → List String
  | .funcDef n _ body => n :: Stmt.funcNamesList body
  | .classDef _ body => Stmt.funcNamesList body
  | .ifElse _ tB eB => Stmt.funcNamesList tB ++ Stmt.funcNamesList eB
  | .forLoop _ _ body => Stmt.funcNamesList body
  | .withStmt _ _ body => Stmt.funcNamesList body
  | .tryExcept b h => Stmt.funcNamesList b ++ Stmt.funcNamesList h
  | _ => []

def Stmt.funcNamesList : List Stmt → List String
  | [] => []
  | s :: ss => s.funcNames ++ Stmt.funcNamesList ss
end

mutual
/-- Dotted names of called functions that belong to the given list of
script-authored function names. -/
def Expr.authoredCalls (authored : List String) : Expr → List String
  | .lit _ => []
  | .var _ => []
  | .attr r _ => r.authoredCalls authored
  | .index r k => r.authoredCalls authored ++ k.authoredCalls authored
  | .sliceIdx r _ _ => r.authoredCalls authored
  | .binop _ l r => l.authoredCalls authored ++ r.authoredCalls authored
  | .call c args =>
      (if authored.contains c.dotted then [c.dotted] else [])
        ++ c.authoredCalls authored ++ Expr.authoredCallsList authored args
  | .kw _ v => v.authoredCalls authored
  | .tuple es => Expr.authoredCallsList authored es
  | .listE es => Expr.authoredCallsList authored es
  | .dictE es => Expr.authoredCallsList authored es
  | .lam _ b => b.authoredCalls authored
  | .fstring es => Expr.authoredCallsList authored es

def Expr.authoredCallsList (authored : List String) : List Expr → List String
  | [] => []
  | e :: es => e.authoredCalls authored ++ Expr.authoredCallsList authored es
end

mutual
/-- Dotted names of calls to script-authored functions anywhere in a
statement, bodies included. -/
def Stmt.authoredCalls (authored : List String) : Stmt → List String
  | .sExpr e => e.authoredCalls authored
  | .assign _ e => e.authoredCalls authored
  | .tupleAssign _ e => e.authoredCalls authored
  | .indexAssign t k e =>
      t.authoredCalls authored ++ k.authoredCalls authored
        ++ e.authoredCalls authored
  | .attrAssign t _ e => t.authoredCalls authored ++ e.authoredCalls authored
  | .augAssign _ _ e => e.authoredCalls authored
  | .delIndex t k => t.authoredCalls authored ++ k.authoredCalls authored
  | .funcDef _ _ body => Stmt.authoredCallsList authored body
  | .classDef _ body => Stmt.authoredCallsList authored body
  | .ifElse c tB eB =>
      c.authoredCalls authored ++ Stmt.authoredCallsList authored tB
        ++ Stmt.authoredCallsList authored eB
  | .forLoop _ it body =>
      it.authoredCalls authored ++ Stmt.authoredCallsList authored body
  | .withStmt c _ body =>
      c.authoredCalls authored ++ Stmt.authoredCallsList authored body
  | .tryExcept b h =>
      Stmt.authoredCallsList authored b ++ Stmt.authoredCallsList authored h
  | .ret e => e.authoredCalls authored
  | .importM _ _ => []
  | .importFrom _ _ => []
  | .magic _ => []

def Stmt.authoredCallsList (authored : List String) : List Stmt → List String
  | [] => []
  | s :: ss =>
      s.authoredCalls authored ++ Stmt.authoredCallsList authored ss
end

/-- Keep-first-occurrence deduplication of a list of strings. -/
def dedupStr : List String → List String
  | [] => []
  | x :: xs => x :: (dedupStr xs).filter (fun y => y != x)

/-- Statement at position `i` of a script (a blank magic if out of range). -/
def stmtAt (s : List Stmt) (i : Nat) : Stmt := s.getD i (.magic "")

end Py

/-! ## Functional embeddings of the authored functions -/

/-- Python `range(start, stop, -1)`: the descending integers from
`start` down to `stop + 1`; empty when `start ≤ stop`. -/
def rangeDown (start stop : Int) : List Int :=
  (List.range (start - stop).toNat).map (fun (k : Nat) => start - (k : Int))

/-- Python true division `a / b`, which raises `ZeroDivisionError` when
the divisor is zero.  Values are modelled as exact rationals; the facts
proved below (raising, and the untouched accumulator `0`) do not depend
on floating-point rounding. -/
def pyDiv (a b : ℚ) : Except String ℚ :=
  if b = 0 then .error "ZeroDivisionError" else .ok (a / b)

/-- The loop body of `blobl_func` (TempsMemoire.py lines 487-491):
for each remaining loop index `i`, `answer += 1 / i`, propagating a
raised `ZeroDivisionError`.  The `print(i)` in the body writes to the
console and does not affect the value. -/
def blobl_loop : List Int → ℚ → Except String ℚ
  | [], answer => .ok answer
  | i :: rest, answer =>
      match pyDiv 1 (i : ℚ) with
      | .error e => .error e
      | .ok q => blobl_loop rest (answer + q)

/-- `blobl_func` from TempsMemoire.py lines 486-492:
`answer = 0`, then `for i in range(x, -1, -1): answer += 1 / i`,
then `return answer`. -/
def blobl_func (x : Int) : Except String ℚ :=
  blobl_loop (rangeDown x (-1)) 0

/-- `illustrate_pdb` from TempsMemoire.py lines 468-472:
`answer = 42`, an interactive `pdb.set_trace()` pause (which does not
change the value), `answer += x`, `return answer`. -/
def illustrate_pdb (x : Int) : Int :=
  let answer : Int := 42
  let answer := answer + x
  answer

/-- Wraparound conversion of an integer to numpy's `int8` range
`[-128, 127]`, the dtype the script casts the hour column to. -/
def int8_of_int (n : Int) : Int := (n + 128) % 256 - 128

/-- Value of a decimal digit character, `none` for any other character. -/
def digit? (c : Char) : Option Nat :=
  if 48 ≤ c.toNat && c.toNat ≤ 57 then some (c.toNat - 48) else none

/-- Value of a non-empty all-digit character list, `none` otherwise. -/
def digitsVal (cs : List Char) : Option Nat :=
  cs.foldl
    (fun acc c =>
      match acc, digit? c with
      | some a, some d => some (a * 10 + d)
      | _, _ => none)
    (if cs.isEmpty then none else some 0)

/-- Parse of a decimal integer string: an optional minus sign followed
by digits, the conversion `int(...)` performs on each column entry. -/
def pyParseInt (s : String) : Option Int :=
  match s.data with
  | '-' :: rest => (digitsVal rest).map (fun n => -(n : Int))
  | cs => (digitsVal cs).map (fun n => (n : Int))

/-- The three-step hour conversion of Pandas.py lines 562-573 applied to
one entry of the `heure` column (read as a string, via the
`converters={'heure': str}` option of `pd.read_csv`):
cast to `np.int8`, subtract 1 (the result staying an `int8` series),
cast back to `str`.  Entries that do not parse as an integer are out of
scope of the cast and modelled as `none`. -/
def heure_conversion (s : String) : Option String :=
  match pyParseInt s with
  | none => none
  | some h => some (toString (int8_of_int (int8_of_int h - 1)))

example : heure_conversion "24" = some "23" := rfl
example : heure_conversion "1" = some "0" := rfl
example : blobl_func (-3) = .ok 0 := rfl
example : blobl_func 0 = .error "ZeroDivisionError" := rfl
example : blobl_func 4 = .error "ZeroDivisionError" := rfl
example : illustrate_pdb 12 = 54 := rfl

/-! ## Translation of Courses/TimeMemory/TempsMemoire.py

Every statement of the script, cell by cell, top to bottom.  Comments,
including the commented-out huge-matrix cell, are not statements and are
not translated. -/

open Py Py.Expr Py.Stmt in
/-- TempsMemoire.py lines 11-66: imports, the `%timeit` timing cells and
the `time.time()` alternative. -/
def tempsTiming : List Stmt := [
  importM "time" "time",
  importM "numpy" "np",
  importM "matplotlib.pyplot" "plt",
  assign "n" (lit "1000"),
  assign "val" (lit "5.4"),
  sExpr (call (var "print") [lit "fill"]),
  magic "%timeit a = np.empty(n); a.fill(val)",
  sExpr (call (var "print") [lit "empty"]),
  magic "%timeit a = np.empty(n); a[:] = val",
  sExpr (call (var "print") [lit "full"]),
  magic "%timeit a = np.full((n,), val)",
  sExpr (call (var "print") [lit "ones"]),
  magic "%timeit a = np.ones(n) * val",
  sExpr (call (var "print") [lit "repeat"]),
  magic "%timeit a = np.repeat(val, n)",
  assign "start" (call (attr (var "time") "time") []),
  assign "a" (binop "*" (call (attr (var "np") "ones") [var "n"]) (var "val")),
  assign "end" (call (attr (var "time") "time") []),
  sExpr (call (var "print")
    [call (attr (lit "Temps passé pour exécuter la commande: \x7b0:.5f\x7d s.") "format")
      [binop "-" (var "end") (var "start")]])]

open Py Py.Expr Py.Stmt in
/-- TempsMemoire.py lines 94-423: the sparse-matrix / graph-adjacency
section, from the `isspmatrix` import up to and including the graph
sparsity percentage, covering meshgrids, scipy sparse matrices, networkx
graphs with their adjacency and incidence matrices, shortest paths, the
force.json visualisation, folium, and the osmnx Montpellier graph. -/
def tempsSparseGraph : List Stmt := [
  importFrom "scipy.sparse" "isspmatrix",
  tupleAssign ["nx", "ny"] (tuple [lit "50", lit "20"]),
  assign "x" (call (attr (var "np") "linspace") [lit "0", lit "1", var "nx"]),
  assign "y" (call (attr (var "np") "linspace") [lit "0", lit "1", var "ny"]),
  tupleAssign ["xv", "yv"]
    (call (attr (var "np") "meshgrid") [var "x", var "y", kw "sparse" (lit "True")]),
  sExpr (call (var "print") [var "yv"]),
  sExpr (call (var "print")
    [fstring [lit "Q: Is the matrix yv is sparse?\nA: ",
      call (var "isspmatrix") [var "yv"]]]),
  assign "x" (call (attr (var "np") "arange") [lit "-5", lit "5", lit "0.1"]),
  assign "y" (call (attr (var "np") "arange") [lit "-5", lit "5", lit "0.1"]),
  tupleAssign ["xx", "yy"]
    (call (attr (var "np") "meshgrid") [var "x", var "y", kw "sparse" (lit "True")]),
  assign "z"
    (binop "/"
      (call (attr (var "np") "sin")
        [binop "+" (binop "**" (var "xx") (lit "2")) (binop "**" (var "yy") (lit "2"))])
      (binop "+" (binop "**" (var "xx") (lit "2")) (binop "**" (var "yy") (lit "2")))),
  assign "h" (call (attr (var "plt") "contourf") [var "x", var "y", var "z"]),
  sExpr (call (attr (var "plt") "show") []),
  importFrom "scipy" "sparse",
  assign "Id" (call (attr (var "sparse") "eye") [lit "3"]),
  sExpr (call (var "print") [call (attr (var "Id") "toarray") []]),
  sExpr (call (var "print")
    [fstring [lit "Q: Is the matrix Id is sparse?\nA: ",
      call (var "isspmatrix") [var "Id"]]]),
  assign "n1" (lit "29"),
  assign "n2" (lit "29"),
  assign "mat_rnd"
    (call (attr (var "sparse") "rand")
      [var "n1", var "n2", kw "density" (lit "0.25"), kw "format" (lit "csr"),
       kw "random_state" (lit "42")]),
  sExpr (call (var "print") [call (attr (var "mat_rnd") "toarray") []]),
  sExpr (call (var "print")
    [fstring [lit "Q: Is the matrix mat_rnd is sparse?\nA: ",
      call (var "isspmatrix") [var "mat_rnd"]]]),
  assign "v" (call (attr (attr (var "np") "random") "rand") [var "n2"]),
  sExpr (call (attr (var "mat_rnd") "dot") [var "v"]),
  importM "networkx" "nx",
  sExpr (attr (var "nx") "__version__"),
  assign "G" (call (attr (var "nx") "Graph") []),
  sExpr (call (attr (var "G") "add_edge") [lit "A", lit "B", kw "weight" (lit "4")]),
  sExpr (call (attr (var "G") "add_edge") [lit "B", lit "D", kw "weight" (lit "2")]),
  sExpr (call (attr (var "G") "add_edge") [lit "A", lit "C", kw "weight" (lit "3")]),
  sExpr (call (attr (var "G") "add_edge") [lit "C", lit "D", kw "weight" (lit "4")]),
  sExpr (call (attr (var "G") "add_edge") [lit "D", lit "A", kw "weight" (lit "2")]),
  sExpr (call (attr (var "nx") "draw_networkx") [var "G", kw "with_labels" (lit "True")]),
  sExpr (call (attr (var "plt") "axis") [lit "off"]),
  sExpr (call (attr (var "plt") "show") []),
  assign "A" (call (attr (var "nx") "adjacency_matrix") [var "G"]),
  sExpr (call (var "print") [call (attr (var "A") "todense") []]),
  sExpr (call (attr (var "nx") "shortest_path")
    [var "G", lit "A", lit "D", kw "weight" (lit "weight")]),
  assign "D"
    (attr (call (attr (var "nx") "incidence_matrix")
      [var "G", kw "oriented" (lit "True")]) "T"),
  sExpr (call (var "print") [call (attr (var "D") "todense") []]),
  importM "matplotlib.pylab" "plt",
  assign "g" (call (attr (var "nx") "karate_club_graph") []),
  tupleAssign ["fig", "ax"]
    (call (attr (var "plt") "subplots")
      [lit "1", lit "1", kw "figsize" (tuple [lit "8", lit "6"])]),
  sExpr (call (attr (var "nx") "draw_networkx") [var "g", kw "ax" (var "ax")]),
  sExpr (call (attr (var "plt") "axis") [lit "off"]),
  sExpr (call (attr (var "plt") "show") []),
  importFrom "networkx.readwrite" "json_graph",
  importM "json" "json",
  withStmt (call (var "open") [lit "force.json"]) "h"
    [assign "js_graph" (call (attr (var "json") "load") [var "h"])],
  importFrom "IPython.display" "HTML",
  sExpr (call (attr (call (var "get_ipython") []) "run_cell_magic")
    [lit "HTML", lit "",
     lit "\n<iframe height=400px width=100% src=force.html></iframe>"]),
  importM "folium" "folium",
  assign "map_osm"
    (call (attr (var "folium") "Map")
      [kw "location" (listE [lit "43.610769", lit "3.876716"])]),
  sExpr (call (attr (var "map_osm") "add_child")
    [call (attr (var "folium") "RegularPolygonMarker")
      [kw "location" (listE [lit "43.610769", lit "3.876716"]),
       kw "fill_color" (lit "#132b5e"), kw "radius" (lit "5")]]),
  sExpr (var "map_osm"),
  importM "osmnx" "ox",
  sExpr (call (attr (attr (var "ox") "utils") "config") [kw "use_cache" (lit "True")]),
  sExpr (attr (var "ox") "__version__"),
  assign "G"
    (call (attr (var "ox") "graph_from_place")
      [lit "Montpellier, France", kw "network_type" (lit "bike")]),
  sExpr (call (attr (var "ox") "plot_graph") [var "G"]),
  sExpr (call (var "print") [call (attr (var "G") "number_of_edges") []]),
  sExpr (call (var "print") [call (attr (var "G") "number_of_nodes") []]),
  assign "origin"
    (call (attr (attr (var "ox") "utils") "geocode")
      [lit "Place Eugène Bataillon, Montpellier, France"]),
  assign "destination"
    (call (attr (attr (var "ox") "utils") "geocode")
      [lit "Maison du Lez, Montpellier, France"]),
  assign "origin_node"
    (call (attr (var "ox") "get_nearest_node") [var "G", var "origin"]),
  assign "destination_node"
    (call (attr (var "ox") "get_nearest_node") [var "G", var "destination"]),
  sExpr (call (var "print") [var "origin"]),
  sExpr (call (var "print") [var "destination"]),
  assign "route"
    (call (attr (var "nx") "shortest_path")
      [var "G", var "origin_node", var "destination_node"]),
  sExpr (call (attr (var "ox") "plot_graph_route") [var "G", var "route"]),
  sExpr (call (attr (var "ox") "plot_route_folium")
    [var "G", var "route", kw "route_width" (lit "2"),
     kw "route_color" (lit "#AA1111")]),
  sExpr (call (attr (var "G") "is_multigraph") []),
  assign "edges"
    (call (attr (var "ox") "graph_to_gdfs")
      [var "G", kw "nodes" (lit "False"), kw "edges" (lit "True")]),
  assign "nodes"
    (call (attr (var "ox") "graph_to_gdfs")
      [var "G", kw "nodes" (lit "True"), kw "edges" (lit "False")]),
  sExpr (call (var "print") [attr (var "edges") "columns"]),
  sExpr (call (var "print") [attr (var "nodes") "columns"]),
  assign "D"
    (attr (call (attr (var "nx") "incidence_matrix")
      [var "G", kw "oriented" (lit "True")]) "T"),
  sExpr (call (var "print")
    [call (attr (lit "Size of full matrix with zeros: \x7b0:3.2f\x7d  MB") "format")
      [binop "/" (attr (attr (var "D") "data") "nbytes")
        (binop "**" (lit "1024") (lit "2"))]]),
  sExpr (call (var "print") [call (var "isspmatrix") [var "D"]]),
  sExpr (var "D"),
  sExpr (call (var "print")
    [call (attr (lit "Il a \x7b0:.2\x7d % d’arrêtes utlile pour représenter le graphe de la ville de Montpellier") "format")
      [binop "/"
        (binop "*" (lit "100") (call (attr (var "G") "number_of_edges") []))
        (binop "**" (call (attr (var "G") "number_of_nodes") []) (lit "2"))]])]

open Py Py.Expr Py.Stmt in
/-- TempsMemoire.py lines 434-441: the geopandas nybb demonstration. -/
def tempsGeo : List Stmt := [
  importM "geopandas" "geopandas",
  assign "df"
    (call (attr (var "geopandas") "read_file")
      [call (attr (attr (var "geopandas") "datasets") "get_path") [lit "nybb"]]),
  assign "ax"
    (call (attr (var "df") "plot")
      [kw "figsize" (tuple [lit "10", lit "10"]), kw "alpha" (lit "0.5"),
       kw "edgecolor" (lit "k")]),
  sExpr (call (attr (var "plt") "show") [])]

open Py Py.Expr Py.Stmt in
/-- TempsMemoire.py lines 468-497: the pdb debugging demonstration,
`illustrate_pdb`, the `%pdb` magic and `blobl_func`. -/
def tempsDebug : List Stmt := [
  funcDef "illustrate_pdb" ["x"] [
    assign "answer" (lit "42"),
    importM "pdb" "pdb",
    sExpr (call (attr (var "pdb") "set_trace") []),
    augAssign "answer" "+" (var "x"),
    ret (var "answer")],
  sExpr (call (var "illustrate_pdb") [lit "12"]),
  sExpr (call (attr (call (var "get_ipython") []) "run_line_magic")
    [lit "pdb", lit ""]),
  funcDef "blobl_func" ["x"] [
    assign "answer" (lit "0"),
    forLoop "i" (call (var "range") [var "x", lit "-1", lit "-1"]) [
      sExpr (call (var "print") [var "i"]),
      augAssign "answer" "+" (binop "/" (lit "1") (var "i"))],
    ret (var "answer")],
  sExpr (call (var "blobl_func") [lit "4"])]

/-- The whole of TempsMemoire.py, top to bottom. -/
def tempsScript : List Py.Stmt :=
  tempsTiming ++ tempsSparseGraph ++ tempsGeo ++ tempsDebug

/-! ## Translation of Courses/Pandas/Pandas.py -/

open Py Py.Expr Py.Stmt in
/-- Pandas.py lines 17-498: imports, the Titanic dataset case study
(download, missing values, visualisation, widgets, groupby, indexing,
loc/iloc, binned age classes). -/
def pandasTitanic : List Stmt := [
  importM "numpy" "np",
  importM "pandas" "pd",
  importM "matplotlib.pyplot" "plt",
  importM "seaborn" "sns",
  importFrom "ipywidgets" "interact",
  importFrom "download" "download",
  attrAssign (attr (attr (var "pd") "options") "display") "max_rows" (lit "8"),
  assign "url" (lit "http://josephsalmon.eu/enseignement/datasets/titanic.csv"),
  assign "path_target" (lit "./titanic.csv"),
  sExpr (call (var "download")
    [var "url", var "path_target", kw "replace" (lit "False")]),
  assign "df_titanic_raw" (call (attr (var "pd") "read_csv") [lit "titanic.csv"]),
  sExpr (call (attr (var "df_titanic_raw") "tail") [kw "n" (lit "3")]),
  sExpr (call (attr (var "df_titanic_raw") "head") [kw "n" (lit "5")]),
  assign "df_titanic" (call (attr (var "df_titanic_raw") "dropna") []),
  sExpr (call (attr (var "df_titanic") "tail") [lit "3"]),
  sExpr (call (attr (var "df_titanic") "info") []),
  sExpr (call (attr (var "df_titanic_raw") "info") []),
  sExpr (call (attr (var "df_titanic") "describe") []),
  sExpr (call (attr (var "plt") "figure") [kw "figsize" (tuple [lit "5", lit "5"])]),
  sExpr (call (attr (var "plt") "hist")
    [index (var "df_titanic") (lit "Age"), kw "density" (lit "True"),
     kw "bins" (lit "25")]),
  sExpr (call (attr (var "plt") "xlabel") [lit "Age"]),
  sExpr (call (attr (var "plt") "ylabel") [lit "Proportion"]),
  sExpr (call (attr (var "plt") "title") [lit "Passager age histogram"]),
  sExpr (call (attr (var "plt") "figure")
    [kw "figsize" (tuple [lit "5", lit "5"]), kw "num" (lit "jfpwje")]),
  assign "ax" (call (attr (var "sns") "kdeplot")
    [index (var "df_titanic") (lit "Age"), kw "shade" (lit "True"),
     kw "cut" (lit "0"), kw "bw" (lit "0.1")]),
  sExpr (call (attr (var "plt") "xlabel") [lit "Proportion"]),
  sExpr (call (attr (var "plt") "ylabel") [lit "Age"]),
  sExpr (call (attr (call (attr (var "ax") "legend") []) "set_visible") [lit "False"]),
  sExpr (call (attr (var "plt") "title") [lit "Passager age kernel denisty estimate"]),
  sExpr (call (attr (var "plt") "tight_layout") []),
  sExpr (call (attr (var "plt") "figure") [kw "figsize" (tuple [lit "5", lit "5"])]),
  sExpr (call (attr (var "plt") "hist")
    [index (var "df_titanic") (lit "Age"), kw "density" (lit "True"),
     kw "bins" (lit "50")]),
  sExpr (call (attr (var "plt") "xlabel") [lit "Age"]),
  sExpr (call (attr (var "plt") "ylabel") [lit "Proportion"]),
  sExpr (call (attr (var "plt") "title") [lit "Passager age histogram"]),
  assign "ax" (call (attr (var "sns") "kdeplot")
    [index (var "df_titanic") (lit "Age"), kw "shade" (lit "True"),
     kw "cut" (lit "0"), kw "bw" (lit "0.2"), kw "color" (lit "red")]),
  sExpr (call (attr (call (attr (var "ax") "legend") []) "set_visible") [lit "False"]),
  sExpr (call (attr (var "plt") "tight_layout") []),
  funcDef "hist_explore" ["n_bins=24", "alpha=0.25", "density=False"] [
    tupleAssign ["fig", "ax"] (call (attr (var "plt") "subplots")
      [lit "1", lit "1", kw "figsize" (tuple [lit "5", lit "5"])]),
    sExpr (call (attr (var "ax") "hist")
      [index (var "df_titanic") (lit "Age"), kw "density" (var "density"),
       kw "bins" (var "n_bins"), kw "alpha" (var "alpha")]),
    sExpr (call (attr (var "plt") "xlabel") [lit "Age"]),
    sExpr (call (attr (var "plt") "ylabel") [lit "Density level"]),
    sExpr (call (attr (var "plt") "title") [lit "Histogram for passengers age"]),
    sExpr (call (attr (var "plt") "tight_layout") []),
    sExpr (call (attr (var "plt") "show") [])],
  sExpr (call (var "interact")
    [var "hist_explore", kw "n_bins" (tuple [lit "1", lit "50", lit "1"]),
     kw "alpha" (tuple [lit "0", lit "1", lit "0.1"]),
     kw "density" (lit "False")]),
  funcDef "kde_explore" ["bw=5"] [
    tupleAssign ["fig", "ax"] (call (attr (var "plt") "subplots")
      [lit "1", lit "1", kw "figsize" (tuple [lit "5", lit "5"])]),
    sExpr (call (attr (var "sns") "kdeplot")
      [index (var "df_titanic") (lit "Age"), kw "bw" (var "bw"),
       kw "shade" (lit "True"), kw "cut" (lit "0"), kw "ax" (var "ax")]),
    sExpr (call (attr (var "plt") "xlabel") [lit "Age (in year)"]),
    sExpr (call (attr (var "plt") "ylabel") [lit "Density level"]),
    sExpr (call (attr (var "plt") "title") [lit "Age of the passengers"]),
    sExpr (call (attr (var "plt") "tight_layout") []),
    sExpr (call (attr (var "plt") "show") [])],
  sExpr (call (var "interact")
    [var "kde_explore", kw "bw" (tuple [lit "0.001", lit "2", lit "0.01"])]),
  sExpr (call (attr (index
      (call (attr (var "df_titanic_raw") "groupby") [lit "Sex"])
      (listE [lit "Survived"])) "aggregate")
    [lam "x" (call (attr (var "x") "mean") [])]),
  sExpr (attr (var "df_titanic") "columns"),
  sExpr (call (attr (var "plt") "figure") []),
  sExpr (call (attr (call (attr (index
      (call (attr (var "df_titanic") "groupby") [lit "Pclass"]) (lit "Survived"))
      "aggregate") [lam "x" (call (attr (var "x") "mean") [])]) "plot")
    [kw "kind" (lit "bar")]),
  sExpr (call (attr (var "plt") "xlabel") [lit "Classe"]),
  sExpr (call (attr (var "plt") "ylabel") [lit "Taux de survie"]),
  sExpr (call (attr (var "plt") "title") [lit "Taux de survie par classe"]),
  sExpr (call (attr (var "plt") "show") []),
  sExpr (call (attr (var "plt") "figure") []),
  sExpr (call (attr (call (attr (index
      (call (attr (var "df_titanic") "groupby") [lit "Pclass"]) (lit "Fare"))
      "aggregate") [lam "x" (call (attr (var "x") "median") [])]) "plot")
    [kw "kind" (lit "bar")]),
  sExpr (call (attr (var "plt") "show") []),
  sExpr (call (attr (var "sns") "catplot")
    [kw "x" (lit "Pclass"), kw "y" (lit "Age"), kw "hue" (lit "Sex"),
     kw "data" (var "df_titanic_raw"), kw "kind" (lit "swarm"),
     kw "legend" (lit "False")]),
  sExpr (call (attr (var "plt") "title") [lit "Age par classe"]),
  sExpr (call (attr (var "plt") "legend") [kw "loc" (lit "1")]),
  sExpr (call (attr (var "plt") "tight_layout") []),
  sExpr (call (attr (index
      (call (attr (var "df_titanic_raw") "groupby")
        [listE [lit "Sex", lit "Pclass"]]) (listE [lit "Sex"])) "count") []),
  sExpr (call (attr (index
      (call (attr (var "df_titanic_raw") "groupby")
        [listE [lit "Sex"]]) (listE [lit "Sex"])) "count") []),
  sExpr (call (attr (var "pd") "crosstab")
    [index (var "df_titanic_raw") (lit "Sex"),
     index (var "df_titanic_raw") (lit "Pclass"),
     kw "values" (index (var "df_titanic_raw") (lit "Sex")),
     kw "aggfunc" (lit "count"), kw "normalize" (lit "False")]),
  sExpr (var "df_titanic"),
  sExpr (attr (var "df_titanic") "index"),
  sExpr (attr (var "df_titanic") "columns"),
  attrAssign (attr (attr (var "pd") "options") "display") "max_rows" (lit "12"),
  sExpr (attr (var "df_titanic") "dtypes"),
  sExpr (call (attr (index (var "df_titanic") (lit "Name")) "astype") [var "str"]),
  assign "array_titanic" (attr (var "df_titanic") "values"),
  sExpr (var "array_titanic"),
  assign "fare" (index (var "df_titanic") (lit "Fare")),
  sExpr (var "fare"),
  sExpr (sliceIdx (attr (var "fare") "values") "" "10"),
  assign "df_titanic_raw" (call (attr (var "df_titanic_raw") "set_index") [lit "Name"]),
  sExpr (var "df_titanic_raw"),
  assign "age" (index (var "df_titanic_raw") (lit "Age")),
  sExpr (index (var "age") (lit "Behr, Mr. Karl Howell")),
  sExpr (call (attr (var "age") "mean") []),
  sExpr (index (var "df_titanic_raw") (binop "<" (var "age") (lit "2"))),
  assign "df_titanic_raw" (call (attr (var "df_titanic_raw") "reset_index") []),
  sExpr (call (attr (index (var "df_titanic_raw") (lit "Embarked")) "value_counts")
    [kw "normalize" (lit "False"), kw "sort" (lit "True"),
     kw "ascending" (lit "False")]),
  attrAssign (attr (attr (var "pd") "options") "display") "max_rows" (lit "70"),
  sExpr (index (var "df_titanic")
    (binop "==" (index (var "df_titanic") (lit "Embarked")) (lit "C"))),
  attrAssign (attr (attr (var "pd") "options") "display") "max_rows" (lit "8"),
  sExpr (binop "/"
    (call (attr (index (var "df_titanic_raw") (lit "Survived")) "sum") [])
    (call (attr (index (var "df_titanic_raw") (lit "Survived")) "count") [])),
  sExpr (call (attr (index (var "df_titanic") (lit "Survived")) "mean") []),
  sExpr (call (attr (call (attr (var "df_titanic_raw") "groupby")
    [listE [lit "Sex"]]) "mean") []),
  sExpr (call (attr (var "pd") "read_csv")
    [lit "babies23.data", kw "skiprows" (lit "38"), kw "sep" (lit "\\s+")]),
  sExpr (call (attr (var "df_titanic_raw") "tail") []),
  sExpr (call (attr (var "df_titanic_raw") "head") []),
  sExpr (call (attr (var "sns") "set_palette") [lit "colorblind"]),
  sExpr (call (attr (var "sns") "catplot")
    [kw "x" (lit "Pclass"), kw "y" (lit "Age"), kw "hue" (lit "Survived"),
     kw "data" (var "df_titanic_raw"), kw "kind" (lit "violin")]),
  sExpr (index (attr (var "df_titanic_raw") "iloc") (tuple [lit "0:2", lit "1:8"])),
  sExpr (index (attr (var "df_titanic_raw") "loc")
    (tuple [lit "Bonnell, Miss. Elizabeth", lit "Fare"])),
  sExpr (index (attr (var "df_titanic_raw") "loc") (lit "Bonnell, Miss. Elizabeth")),
  sExpr (index (attr (var "df_titanic_raw") "loc")
    (tuple [lit "Bonnell, Miss. Elizabeth", lit "Survived"])),
  indexAssign (attr (var "df_titanic_raw") "loc")
    (tuple [lit "Bonnell, Miss. Elizabeth", lit "Survived"]) (lit "0"),
  sExpr (index (attr (var "df_titanic_raw") "loc") (lit "Bonnell, Miss. Elizabeth")),
  indexAssign (attr (var "df_titanic_raw") "loc")
    (tuple [lit "Bonnell, Miss. Elizabeth", lit "Survived"]) (lit "1"),
  sExpr (call (attr (call (attr (var "df_titanic") "groupby") [lit "Sex"]) "mean") []),
  sExpr (index (call (attr (call (attr (var "df_titanic_raw") "groupby")
    [lit "Sex"]) "mean") []) (lit "Pclass")),
  indexAssign (var "df_titanic") (lit "AgeClass")
    (call (attr (var "pd") "cut")
      [index (var "df_titanic") (lit "Age"),
       kw "bins" (call (attr (var "np") "arange") [lit "0", lit "90", lit "10"])]),
  sExpr (index (var "df_titanic") (lit "AgeClass"))]

open Py Py.Expr Py.Stmt in
/-- Pandas.py lines 508-774: the Paris air-quality case study
(download, the hour-column conversion, datetime construction, time
series resampling, weekday and month profiles). -/
def pandasAir : List Stmt := [
  assign "url" (lit "http://josephsalmon.eu/enseignement/datasets/20080421_20160927-PA13_auto.csv"),
  assign "path_target" (lit "./20080421_20160927-PA13_auto.csv"),
  sExpr (call (var "download")
    [var "url", var "path_target", kw "replace" (lit "False")]),
  magic "!head -26 ./20080421_20160927-PA13_auto.csv",
  assign "polution_df" (call (attr (var "pd") "read_csv")
    [lit "20080421_20160927-PA13_auto.csv", kw "sep" (lit ";"),
     kw "comment" (lit "#"), kw "na_values" (lit "n/d"),
     kw "converters" (dictE [kw "heure" (var "str")])]),
  attrAssign (attr (attr (var "pd") "options") "display") "max_rows" (lit "30"),
  sExpr (call (attr (var "polution_df") "head") [lit "25"]),
  sExpr (attr (var "polution_df") "dtypes"),
  sExpr (call (attr (var "polution_df") "info") []),
  indexAssign (var "polution_df") (lit "heure")
    (call (attr (index (var "polution_df") (lit "heure")) "astype")
      [attr (var "np") "int8"]),
  sExpr (index (var "polution_df") (lit "heure")),
  indexAssign (var "polution_df") (lit "heure")
    (binop "-" (index (var "polution_df") (lit "heure")) (lit "1")),
  sExpr (index (var "polution_df") (lit "heure")),
  indexAssign (var "polution_df") (lit "heure")
    (call (attr (index (var "polution_df") (lit "heure")) "astype") [lit "str"]),
  sExpr (index (var "polution_df") (lit "heure")),
  assign "time_improved" (call (attr (var "pd") "to_datetime")
    [binop "+"
      (binop "+"
        (binop "+" (index (var "polution_df") (lit "date")) (lit " "))
        (index (var "polution_df") (lit "heure")))
      (lit ":00"),
     kw "format" (lit "%d/%m/%Y %H:%M")]),
  sExpr (var "time_improved"),
  sExpr (binop "+"
    (binop "+"
      (binop "+" (index (var "polution_df") (lit "date")) (lit " "))
      (index (var "polution_df") (lit "heure")))
    (lit ":00")),
  indexAssign (var "polution_df") (lit "DateTime") (var "time_improved"),
  delIndex (var "polution_df") (lit "heure"),
  delIndex (var "polution_df") (lit "date"),
  sExpr (var "polution_df"),
  assign "polution_ts" (call (attr (var "polution_df") "set_index")
    [listE [lit "DateTime"]]),
  assign "polution_ts" (call (attr (var "polution_ts") "sort_index")
    [kw "ascending" (lit "True")]),
  sExpr (call (attr (var "polution_ts") "head") [lit "12"]),
  sExpr (call (attr (var "polution_ts") "describe") []),
  tupleAssign ["fig", "axes"] (call (attr (var "plt") "subplots")
    [lit "2", lit "1", kw "figsize" (tuple [lit "6", lit "6"]),
     kw "sharex" (lit "True")]),
  sExpr (call (attr (index (var "axes") (lit "0")) "plot")
    [index (var "polution_ts") (lit "O3")]),
  sExpr (call (attr (index (var "axes") (lit "0")) "set_title")
    [lit "Ozone polution: daily average in Paris"]),
  sExpr (call (attr (index (var "axes") (lit "0")) "set_ylabel")
    [lit "Concentration (µg/m³)"]),
  sExpr (call (attr (index (var "axes") (lit "1")) "plot")
    [index (var "polution_ts") (lit "NO2")]),
  sExpr (call (attr (index (var "axes") (lit "1")) "set_title")
    [lit "Nitrogen polution: daily average in Paris"]),
  sExpr (call (attr (index (var "axes") (lit "1")) "set_ylabel")
    [lit "Concentration (µg/m³)"]),
  sExpr (call (attr (var "plt") "show") []),
  tupleAssign ["fig", "axes"] (call (attr (var "plt") "subplots")
    [lit "2", lit "1", kw "figsize" (tuple [lit "10", lit "5"]),
     kw "sharex" (lit "True")]),
  sExpr (call (attr (index (var "axes") (lit "0")) "plot")
    [call (attr (call (attr (index (var "polution_ts") (lit "O3")) "resample")
      [lit "d"]) "max") [], lit "--"]),
  sExpr (call (attr (index (var "axes") (lit "0")) "plot")
    [call (attr (call (attr (index (var "polution_ts") (lit "O3")) "resample")
      [lit "d"]) "min") [], lit "-."]),
  sExpr (call (attr (index (var "axes") (lit "0")) "set_title")
    [lit "Ozone polution: daily average in Paris"]),
  sExpr (call (attr (index (var "axes") (lit "0")) "set_ylabel")
    [lit "Concentration (µg/m³)"]),
  sExpr (call (attr (index (var "axes") (lit "1")) "plot")
    [call (attr (call (attr (index (var "polution_ts") (lit "NO2")) "resample")
      [lit "d"]) "max") [], lit "--"]),
  sExpr (call (attr (index (var "axes") (lit "1")) "plot")
    [call (attr (call (attr (index (var "polution_ts") (lit "NO2")) "resample")
      [lit "d"]) "min") [], lit "-."]),
  sExpr (call (attr (index (var "axes") (lit "1")) "set_title")
    [lit "Nitrogen polution: daily average in Paris"]),
  sExpr (call (attr (index (var "axes") (lit "1")) "set_ylabel")
    [lit "Concentration (µg/m³)"]),
  sExpr (call (attr (var "plt") "show") []),
  assign "ax" (call (attr (call (attr (call
      (attr (sliceIdx (var "polution_ts") "2008" "") "resample") [lit "Y"])
      "mean") []) "plot") [kw "figsize" (tuple [lit "4", lit "4"])]),
  sExpr (call (attr (var "plt") "ylim") [lit "0", lit "50"]),
  sExpr (call (attr (var "plt") "title")
    [lit "Pollution evolution: \n yearly average in Paris"]),
  sExpr (call (attr (var "plt") "ylabel") [lit "Concentration (µg/m³)"]),
  sExpr (call (attr (var "plt") "xlabel") [lit "Year"]),
  sExpr (call (attr (var "sns") "set_palette")
    [lit "GnBu_d", kw "n_colors" (lit "7")]),
  indexAssign (var "polution_ts") (lit "weekday")
    (attr (attr (var "polution_ts") "index") "weekday"),
  indexAssign (var "polution_ts") (lit "weekend")
    (call (attr (index (var "polution_ts") (lit "weekday")) "isin")
      [listE [lit "5", lit "6"]]),
  assign "days" (listE [lit "Monday", lit "Tuesday", lit "Wednesday",
    lit "Thursday", lit "Friday", lit "Saturday", lit "Sunday"]),
  assign "polution_week_no2" (call (attr (call (attr (index
      (call (attr (var "polution_ts") "groupby")
        [listE [lit "weekday", attr (attr (var "polution_ts") "index") "hour"]])
      (lit "NO2")) "mean") []) "unstack") [kw "level" (lit "0")]),
  assign "polution_week_03" (call (attr (call (attr (index
      (call (attr (var "polution_ts") "groupby")
        [listE [lit "weekday", attr (attr (var "polution_ts") "index") "hour"]])
      (lit "O3")) "mean") []) "unstack") [kw "level" (lit "0")]),
  sExpr (call (attr (var "plt") "show") []),
  tupleAssign ["fig", "axes"] (call (attr (var "plt") "subplots")
    [lit "2", lit "1", kw "figsize" (tuple [lit "7", lit "7"]),
     kw "sharex" (lit "True")]),
  sExpr (call (attr (var "polution_week_no2") "plot")
    [kw "ax" (index (var "axes") (lit "0"))]),
  sExpr (call (attr (index (var "axes") (lit "0")) "set_ylabel")
    [lit "Concentration (µg/m³)"]),
  sExpr (call (attr (index (var "axes") (lit "0")) "set_xlabel")
    [lit "Heure de la journée"]),
  sExpr (call (attr (index (var "axes") (lit "0")) "set_title")
    [lit "Profil journalier de la pollution au NO2: effet du weekend?"]),
  sExpr (call (attr (index (var "axes") (lit "0")) "set_xticks")
    [call (attr (var "np") "arange") [lit "0", lit "24"]]),
  sExpr (call (attr (index (var "axes") (lit "0")) "set_xticklabels")
    [call (attr (var "np") "arange") [lit "0", lit "24"], kw "rotation" (lit "45")]),
  sExpr (call (attr (index (var "axes") (lit "0")) "set_ylim") [lit "0", lit "60"]),
  sExpr (call (attr (var "polution_week_03") "plot")
    [kw "ax" (index (var "axes") (lit "1"))]),
  sExpr (call (attr (index (var "axes") (lit "1")) "set_ylabel")
    [lit "Concentration (µg/m³)"]),
  sExpr (call (attr (index (var "axes") (lit "1")) "set_xlabel")
    [lit "Heure de la journée"]),
  sExpr (call (attr (index (var "axes") (lit "1")) "set_title")
    [lit "Profil journalier de la pollution au O3: effet du weekend?"]),
  sExpr (call (attr (index (var "axes") (lit "1")) "set_xticks")
    [call (attr (var "np") "arange") [lit "0", lit "24"]]),
  sExpr (call (attr (index (var "axes") (lit "1")) "set_xticklabels")
    [call (attr (var "np") "arange") [lit "0", lit "24"], kw "rotation" (lit "45")]),
  sExpr (call (attr (index (var "axes") (lit "1")) "set_ylim") [lit "0", lit "70"]),
  sExpr (call (attr (call (attr (index (var "axes") (lit "0")) "legend") [])
    "set_visible") [lit "False"]),
  sExpr (call (attr (index (var "axes") (lit "1")) "legend")
    [kw "labels" (var "days"), kw "loc" (lit "lower left"),
     kw "bbox_to_anchor" (tuple [lit "1", lit "0.1"])]),
  sExpr (call (attr (var "plt") "tight_layout") []),
  importM "calendar" "calendar",
  indexAssign (var "polution_ts") (lit "month")
    (attr (attr (var "polution_ts") "index") "month"),
  indexAssign (var "polution_ts") (lit "month")
    (call (attr (index (var "polution_ts") (lit "month")) "apply")
      [lam "x" (index (attr (var "calendar") "month_abbr") (var "x"))]),
  sExpr (call (attr (var "polution_ts") "head") []),
  assign "polution_month_no2" (call (attr (call (attr (index
      (call (attr (var "polution_ts") "groupby")
        [listE [lit "month", attr (attr (var "polution_ts") "index") "hour"]])
      (lit "NO2")) "mean") []) "unstack") [kw "level" (lit "0")]),
  assign "polution_month_03" (call (attr (call (attr (index
      (call (attr (var "polution_ts") "groupby")
        [listE [lit "month", attr (attr (var "polution_ts") "index") "hour"]])
      (lit "O3")) "mean") []) "unstack") [kw "level" (lit "0")]),
  sExpr (call (attr (var "sns") "set_palette")
    [lit "Paired", kw "n_colors" (lit "12")]),
  tupleAssign ["fig", "axes"] (call (attr (var "plt") "subplots")
    [lit "2", lit "1", kw "figsize" (tuple [lit "10", lit "7"]),
     kw "sharex" (lit "True")]),
  sExpr (call (attr (var "polution_month_no2") "plot")
    [kw "ax" (index (var "axes") (lit "0"))]),
  sExpr (call (attr (index (var "axes") (lit "0")) "set_ylabel")
    [lit "Concentration (µg/m³)"]),
  sExpr (call (attr (index (var "axes") (lit "0")) "set_xlabel")
    [lit "Heure de la journée"]),
  sExpr (call (attr (index (var "axes") (lit "0")) "set_title")
    [lit "Profil journalier de la pollution au NO2: effet du weekend?"]),
  sExpr (call (attr (index (var "axes") (lit "0")) "set_xticks")
    [call (attr (var "np") "arange") [lit "0", lit "24"]]),
  sExpr (call (attr (index (var "axes") (lit "0")) "set_xticklabels")
    [call (attr (var "np") "arange") [lit "0", lit "24"], kw "rotation" (lit "45")]),
  sExpr (call (attr (index (var "axes") (lit "0")) "set_ylim") [lit "0", lit "90"]),
  sExpr (call (attr (var "polution_month_03") "plot")
    [kw "ax" (index (var "axes") (lit "1"))]),
  sExpr (call (attr (index (var "axes") (lit "1")) "set_ylabel")
    [lit "Concentration (µg/m³)"]),
  sExpr (call (attr (index (var "axes") (lit "1")) "set_xlabel")
    [lit "Heure de la journée"]),
  sExpr (call (attr (index (var "axes") (lit "1")) "set_title")
    [lit "Profil journalier de la pollution au O3: effet du weekend?"]),
  sExpr (call (attr (index (var "axes") (lit "1")) "set_xticks")
    [call (attr (var "np") "arange") [lit "0", lit "24"]]),
  sExpr (call (attr (index (var "axes") (lit "1")) "set_xticklabels")
    [call (attr (var "np") "arange") [lit "0", lit "24"], kw "rotation" (lit "45")]),
  sExpr (call (attr (index (var "axes") (lit "1")) "set_ylim") [lit "0", lit "90"]),
  sExpr (call (attr (call (attr (index (var "axes") (lit "0")) "legend") [])
    "set_visible") [lit "False"]),
  sExpr (call (attr (index (var "axes") (lit "1")) "legend")
    [kw "labels" (sliceIdx (attr (var "calendar") "month_name") "1" ""),
     kw "loc" (lit "lower left"), kw "bbox_to_anchor" (tuple [lit "1", lit "0.1"])]),
  sExpr (call (attr (var "plt") "tight_layout") [])]

open Py Py.Expr Py.Stmt in
/-- Pandas.py lines 785-1076: the bicycle-accident case study (download,
missing hours, datetime index, pivot tables and crosstabs, weekday and
month profiles, and the pygal accident map with its two display
conditionals). -/
def pandasBikes : List Stmt := [
  assign "url" (lit "https://koumoul.com/s/data-fair/api/v1/datasets/accidents-velos/raw"),
  assign "path_target" (lit "./bicycle_db.csv"),
  sExpr (call (var "download")
    [var "url", var "path_target", kw "replace" (lit "True")]),
  assign "df_bikes" (call (attr (var "pd") "read_csv")
    [lit "bicycle_db.csv", kw "na_values" (lit ""),
     kw "converters" (dictE [kw "data" (var "str"), kw "heure" (var "str")])]),
  sExpr (call (attr (call (var "get_ipython") []) "system")
    [lit "head -5 ./bicycle_db.csv"]),
  attrAssign (attr (attr (var "pd") "options") "display") "max_columns" (lit "40"),
  sExpr (call (attr (var "df_bikes") "head") []),
  sExpr (call (attr (index (var "df_bikes") (lit "existence securite")) "unique") []),
  sExpr (call (attr (index (var "df_bikes") (lit "gravite accident")) "unique") []),
  sExpr (attr (index (var "df_bikes") (lit "date")) "hasnans"),
  sExpr (attr (index (var "df_bikes") (lit "heure")) "hasnans"),
  attrAssign (attr (attr (var "pd") "options") "display") "max_rows" (lit "20"),
  sExpr (sliceIdx (attr (var "df_bikes") "iloc") "400" "402"),
  indexAssign (var "df_bikes") (lit "heure")
    (call (attr (index (var "df_bikes") (lit "heure")) "replace")
      [lit "", attr (var "np") "nan"]),
  sExpr (sliceIdx (attr (var "df_bikes") "iloc") "400" "402"),
  sExpr (call (attr (var "df_bikes") "dropna")
    [kw "subset" (listE [lit "heure"]), kw "inplace" (lit "True")]),
  sExpr (sliceIdx (attr (var "df_bikes") "iloc") "399" "402"),
  sExpr (binop "+"
    (binop "+"
      (binop "+" (index (var "df_bikes") (lit "date")) (lit " "))
      (index (var "df_bikes") (lit "heure")))
    (lit ":00")),
  assign "time_improved" (call (attr (var "pd") "to_datetime")
    [binop "+"
      (binop "+"
        (binop "+" (index (var "df_bikes") (lit "date")) (lit " "))
        (index (var "df_bikes") (lit "heure")))
      (lit ":00"),
     kw "format" (lit "%Y-%m-%d %H:%M")]),
  indexAssign (var "df_bikes") (lit "Time") (var "time_improved"),
  sExpr (call (attr (var "df_bikes") "set_index")
    [lit "Time", kw "inplace" (lit "True")]),
  delIndex (var "df_bikes") (lit "heure"),
  delIndex (var "df_bikes") (lit "date"),
  sExpr (call (attr (var "df_bikes") "info") []),
  assign "df_bike2" (index (var "df_bikes")
    (listE [lit "gravite accident", lit "existence securite", lit "age", lit "sexe"])),
  indexAssign (var "df_bike2") (lit "existence securite")
    (call (attr (index (var "df_bike2") (lit "existence securite")) "replace")
      [attr (var "np") "nan", lit "Inconnu"]),
  sExpr (call (attr (var "df_bike2") "dropna") [kw "inplace" (lit "True")]),
  assign "group" (call (attr (var "df_bike2") "pivot_table")
    [kw "columns" (lit "existence securite"),
     kw "index" (listE [lit "gravite accident", lit "sexe"]),
     kw "aggfunc" (dictE [kw "age" (lit "count")]), kw "margins" (lit "True")]),
  sExpr (var "group"),
  sExpr (binop "*"
    (call (attr (var "pd") "crosstab")
      [index (var "df_bike2") (lit "existence securite"),
       index (var "df_bike2") (lit "gravite accident"),
       kw "normalize" (lit "index")])
    (lit "100")),
  sExpr (binop "*"
    (call (attr (var "pd") "crosstab")
      [index (var "df_bike2") (lit "existence securite"),
       index (var "df_bike2") (lit "gravite accident"),
       kw "values" (index (var "df_bike2") (lit "age")),
       kw "aggfunc" (lit "count"), kw "normalize" (lit "index")])
    (lit "100")),
  assign "idx_dead" (binop "=="
    (index (var "df_bikes") (lit "gravite accident")) (lit "3 - Tué")),
  assign "df_deads" (index (var "df_bikes") (var "idx_dead")),
  assign "df_gravite" (binop "/"
    (call (attr (call (attr (var "df_deads") "groupby") [lit "sexe"]) "size") [])
    (call (attr (var "idx_dead") "sum") [])),
  sExpr (var "df_gravite"),
  sExpr (binop "/"
    (call (attr (call (attr (var "df_bikes") "groupby") [lit "sexe"]) "size") [])
    (index (attr (var "df_bikes") "shape") (lit "0"))),
  sExpr (binop "*"
    (call (attr (var "pd") "crosstab")
      [index (var "df_bike2") (lit "sexe"),
       index (var "df_bike2") (lit "gravite accident"),
       kw "values" (index (var "df_bike2") (lit "age")),
       kw "aggfunc" (lit "count"), kw "normalize" (lit "columns"),
       kw "margins" (lit "True")])
    (lit "100")),
  sExpr (var "df_bikes"),
  sExpr (call (attr (var "sns") "set_palette")
    [lit "GnBu_d", kw "n_colors" (lit "7")]),
  indexAssign (var "df_bikes") (lit "weekday")
    (attr (attr (var "df_bikes") "index") "weekday"),
  assign "accidents_week" (call (attr (call (attr (index
      (call (attr (var "df_bikes") "groupby")
        [listE [lit "weekday", attr (attr (var "df_bikes") "index") "hour"]])
      (lit "sexe")) "count") []) "unstack") [kw "level" (lit "0")]),
  tupleAssign ["fig", "axes"] (call (attr (var "plt") "subplots")
    [lit "1", lit "1", kw "figsize" (tuple [lit "7", lit "7"])]),
  sExpr (call (attr (var "accidents_week") "plot") [kw "ax" (var "axes")]),
  sExpr (call (attr (var "axes") "set_ylabel") [lit "Accidents"]),
  sExpr (call (attr (var "axes") "set_xlabel") [lit "Heure de la journée"]),
  sExpr (call (attr (var "axes") "set_title")
    [lit "Profil journalier des accidents: effet du weekend?"]),
  sExpr (call (attr (var "axes") "set_xticks")
    [call (attr (var "np") "arange") [lit "0", lit "24"]]),
  sExpr (call (attr (var "axes") "set_xticklabels")
    [call (attr (var "np") "arange") [lit "0", lit "24"], kw "rotation" (lit "45")]),
  sExpr (call (attr (var "axes") "legend")
    [kw "labels" (var "days"), kw "loc" (lit "lower left"),
     kw "bbox_to_anchor" (tuple [lit "1", lit "0.1"])]),
  sExpr (call (attr (var "plt") "legend") []),
  sExpr (call (attr (var "plt") "tight_layout") []),
  sExpr (call (attr (index
      (call (attr (var "df_bikes") "groupby")
        [listE [lit "weekday", attr (attr (var "df_bikes") "index") "hour"]])
      (lit "sexe")) "count") []),
  indexAssign (var "df_bikes") (lit "month")
    (attr (attr (var "df_bikes") "index") "month"),
  indexAssign (var "df_bikes") (lit "month")
    (call (attr (index (var "df_bikes") (lit "month")) "apply")
      [lam "x" (index (attr (var "calendar") "month_abbr") (var "x"))]),
  sExpr (call (attr (var "df_bikes") "head") []),
  sExpr (call (attr (var "sns") "set_palette")
    [lit "GnBu_d", kw "n_colors" (lit "12")]),
  assign "df_bikes_month" (call (attr (call (attr (index
      (call (attr (var "df_bikes") "groupby")
        [listE [lit "month", attr (attr (var "df_bikes") "index") "hour"]])
      (lit "age")) "count") []) "unstack") [kw "level" (lit "0")]),
  tupleAssign ["fig", "axes"] (call (attr (var "plt") "subplots")
    [lit "1", lit "1", kw "figsize" (tuple [lit "7", lit "7"]),
     kw "sharex" (lit "True")]),
  sExpr (call (attr (var "df_bikes_month") "plot") [kw "ax" (var "axes")]),
  sExpr (call (attr (var "axes") "set_ylabel") [lit "Concentration (µg/m³)"]),
  sExpr (call (attr (var "axes") "set_xlabel") [lit "Heure de la journée"]),
  sExpr (call (attr (var "axes") "set_title")
    [lit "Profil journalier de la pollution au NO2: effet du weekend?"]),
  sExpr (call (attr (var "axes") "set_xticks")
    [call (attr (var "np") "arange") [lit "0", lit "24"]]),
  sExpr (call (attr (var "axes") "set_xticklabels")
    [call (attr (var "np") "arange") [lit "0", lit "24"], kw "rotation" (lit "45")]),
  sExpr (call (attr (var "axes") "legend")
    [kw "labels" (sliceIdx (attr (var "calendar") "month_name") "1" ""),
     kw "loc" (lit "lower left"), kw "bbox_to_anchor" (tuple [lit "1", lit "0.1"])]),
  sExpr (call (attr (var "plt") "tight_layout") []),
  importM "pygal" "pygal",
  assign "path_target" (lit "./dpt_population.csv"),
  assign "url" (lit "https://public.opendatasoft.com/explore/dataset/population-francaise-par-departement-2018/download/?format=csv&timezone=Europe/Berlin&lang=en&use_labels_for_header=true&csv_separator=%3B"),
  sExpr (call (var "download")
    [var "url", var "path_target", kw "replace" (lit "False")]),
  assign "path_target" (lit "./dpt_area.csv"),
  assign "url" (lit "https://www.regions-et-departements.fr/fichiers/departements-francais.csv"),
  sExpr (call (var "download")
    [var "url", var "path_target", kw "replace" (lit "False")]),
  assign "df_dtp_pop" (call (attr (var "pd") "read_csv")
    [lit "dpt_population.csv", kw "sep" (lit ";"), kw "low_memory" (lit "False")]),
  assign "df_dtp_area" (call (attr (var "pd") "read_csv")
    [lit "dpt_area.csv", kw "sep" (lit "\t"), kw "low_memory" (lit "False"),
     kw "skiprows" (listE [lit "102", lit "103", lit "104"])]),
  sExpr (index (var "df_dtp_area") (lit "NUMÉRO")),
  sExpr (call (attr (var "df_dtp_area") "set_index")
    [lit "NUMÉRO", kw "inplace" (lit "True")]),
  sExpr (call (attr (var "df_dtp_pop") "set_index")
    [lit "Code Département", kw "inplace" (lit "True")]),
  sExpr (call (attr (var "df_dtp_pop") "sort_index") [kw "inplace" (lit "True")]),
  assign "fr_chart" (call (attr (attr (attr (var "pygal") "maps") "fr") "Departments")
    [kw "human_readable" (lit "True")]),
  assign "display" (lit "ratio_accident"),
  ifElse (binop "is" (var "display") (lit "ratio_accident")) [
    attrAssign (var "fr_chart") "title" (lit "Accidents by departement"),
    assign "gd" (call (attr (call (attr (var "df_bikes") "groupby")
      [listE [lit "departement"]]) "size") []),
    assign "gd" (binop "/" (var "gd") (index (var "df_dtp_pop") (lit "Population")))] [
    attrAssign (var "fr_chart") "title" (lit "Deaths by departement"),
    assign "df_deads" (index (var "df_bikes")
      (binop "==" (index (var "df_bikes") (lit "gravite accident")) (lit "3 - Tué"))),
    assign "df_gravite" (call (attr (call (attr (var "df_deads") "groupby")
      [lit "departement"]) "size") []),
    assign "gd" (binop "/" (var "df_gravite")
      (index (var "df_dtp_pop") (lit "Population")))],
  assign "normalization" (lit "True"),
  ifElse (binop "is" (var "normalization") (lit "True")) [
    assign "gd" (binop "/" (var "gd")
      (index (var "df_dtp_area") (lit "SUPERFICIE (km²)")))] [],
  sExpr (call (attr (var "gd") "dropna") [kw "inplace" (lit "True")]),
  sExpr (call (attr (var "fr_chart") "add")
    [lit "Accidents", call (attr (var "gd") "to_dict") []]),
  sExpr (call (attr (var "fr_chart") "render_in_browser") [])]

/-- The whole of Pandas.py, top to bottom. -/
def pandasScript : List Py.Stmt := pandasTitanic ++ pandasAir ++ pandasBikes

/-! ## Claim-level predicates -/

/-- No algorithm from scratch, read off the embedded scripts: no
authored function's body contains a loop or arithmetic of its own, and
no statement anywhere performs authored arithmetic (so that every
computational step is a bare library call). -/
def noFromScratch (s : List Py.Stmt) : Prop :=
  Py.Stmt.ownComputeFuncsList s = [] ∧ Py.Stmt.arithCountList s = 0

/-- Some statement mutates shared state (an in-place index, attribute or
del assignment, an augmented assignment, or an in-place method call)
that a later, separate statement reads. -/
def mutatesThenReads (s : List Py.Stmt) : Prop :=
  ∃ i j r, i < j ∧ j < s.length ∧
    r ∈ (Py.stmtAt s i).mutsOf ∧ r ∈ (Py.stmtAt s j).readsOf

/-- No statement mutates state that a later, separate statement reads. -/
def noMutateThenRead (s : List Py.Stmt) : Prop := ¬ mutatesThenReads s

/-- Every input/output channel the script crosses lies in `allowed`. -/
abbrev channelsWithin (s : List Py.Stmt) (allowed : List Py.Eff) : Prop :=
  ∀ e ∈ Py.Stmt.effsOfList s, e ∈ allowed

/-- The channels the spec claims exhaustive: reading files from local
disk, downloading from fixed URLs (with the local write of the
downloaded file this entails), and rendering to a display. -/
def specChannels : List Py.Eff :=
  [.fileRead, .urlDownload, .fileWrite, .display]

/-- Some step of the script writes data to local disk, persisting it
beyond the run. -/
abbrev persistsData (s : List Py.Stmt) : Prop :=
  Py.Eff.fileWrite ∈ Py.Stmt.effsOfList s

/-- Straight-line script: no conditional branch and no loop anywhere,
so a single top-to-bottom run executes every step exactly once. -/
def linearOnce (s : List Py.Stmt) : Prop :=
  Py.Stmt.ifCountList s = 0 ∧ Py.Stmt.loopCountList s = 0

/-- An `if`/`else` both of whose branches are nonempty: whichever way
its condition evaluates, the steps of the branch not taken are skipped. -/
def Py.Stmt.skipsSteps : Py.Stmt → Bool
  | .ifElse _ (_ :: _) (_ :: _) => true
  | _ => false

/-! ## Supporting lemmas for `blobl_func` -/

/-- `range(0, -1, -1)` is the one-element list `[0]`. -/
theorem rangeDown_zero : rangeDown 0 (-1) = [0] := rfl

/-- `range(x, -1, -1)` is empty for negative `x`. -/
theorem rangeDown_neg (x : Int) (hx : x < 0) : rangeDown x (-1) = [] := by
  unfold rangeDown
  have h0 : (x - (-1)).toNat = 0 := by omega
  rw [h0]
  rfl

/-- `range(n+1, -1, -1)` starts at `n+1` and continues as
`range(n, -1, -1)`. -/
theorem rangeDown_succ (n : Nat) :
    rangeDown ((n : Int) + 1) (-1) = ((n : Int) + 1) :: rangeDown (n : Int) (-1) := by
  unfold rangeDown
  have h1 : ((n : Int) + 1 - (-1)).toNat = n + 2 := by omega
  have h2 : ((n : Int) - (-1)).toNat = n + 1 := by omega
  rw [h1, h2, show n + 2 = (n + 1) + 1 from rfl, List.range_succ_eq_map,
    List.map_cons, List.map_map]
  have hf :
      ((fun k : Nat => (n : Int) + 1 - (k : Int)) ∘ Nat.succ) =
        fun k : Nat => (n : Int) - (k : Int) := by
    funext k
    simp only [Function.comp]
    push_cast
    ring
  rw [hf]
  simp

/-- Running the loop of `blobl_func` over `range(n, -1, -1)` always
reaches `i = 0` and raises `ZeroDivisionError`, whatever the
accumulator. -/
theorem blobl_loop_error (n : Nat) :
    ∀ a : ℚ, blobl_loop (rangeDown (n : Int) (-1)) a = .error "ZeroDivisionError" := by
  induction n with
  | zero =>
      intro a
      rw [Nat.cast_zero, rangeDown_zero]
      simp [blobl_loop, pyDiv]
  | succ n ih =>
      intro a
      rw [show ((n + 1 : Nat) : Int) = (n : Int) + 1 by push_cast; ring,
        rangeDown_succ]
      have hne : ((((n : Int) + 1) : Int) : ℚ) ≠ 0 := by
        push_cast
        positivity
      simp only [blobl_loop, pyDiv, if_neg hne]
      exact ih _

/-! ## Claim theorems -/

/-- C2: for every integer `x ≥ 0`, `blobl_func x` raises
`ZeroDivisionError` and never returns — its loop runs `i` from `x` down
to `0` and evaluates `1 / i` at `i = 0`; for every `x < 0` the loop body
never runs and `blobl_func x` returns `0`. -/
theorem blobl_func_spec (x : Int) :
    (0 ≤ x → blobl_func x = .error "ZeroDivisionError") ∧
    (x < 0 → blobl_func x = .ok 0) := by
  constructor
  · intro hx
    obtain ⟨n, rfl⟩ : ∃ n : Nat, x = (n : Int) := ⟨x.toNat, by omega⟩
    exact blobl_loop_error n 0
  · intro hx
    unfold blobl_func
    rw [rangeDown_neg x hx]
    rfl

/-- Witness for C2: the script's own top-level call `blobl_func(4)`
raises, and `blobl_func(-1)` returns `0`. -/
theorem blobl_func_spec_witness :
    blobl_func 4 = .error "ZeroDivisionError" ∧ blobl_func (-1) = .ok 0 :=
  ⟨(blobl_func_spec 4).1 (by norm_num), (blobl_func_spec (-1)).2 (by norm_num)⟩

/-- C10: for every integer `x`, `illustrate_pdb x` returns `42 + x`
(the interactive debugger pause aside); in particular the script's
top-level call `illustrate_pdb(12)` returns `54`. -/
theorem illustrate_pdb_spec :
    ∀ x : Int, illustrate_pdb x = 42 + x ∧ illustrate_pdb 12 = 54 :=
  fun _ => ⟨rfl, rfl⟩

/-- C9: for every `heure` entry whose string parses as an integer `h`
with `1 ≤ h ≤ 24`, the three-step conversion (cast to `int8`, subtract
`1`, cast back to `str`) yields the decimal string of `h - 1`, a value
between `0` and `23`, a valid 24-hour clock hour for the subsequent
`pd.to_datetime` with format `%d/%m/%Y %H:%M`. -/
theorem heure_conversion_spec (s : String) (h : Int)
    (hp : pyParseInt s = some h) (h1 : 1 ≤ h) (h2 : h ≤ 24) :
    heure_conversion s = some (toString (h - 1)) ∧ 0 ≤ h - 1 ∧ h - 1 ≤ 23 := by
  refine ⟨?_, by omega, by omega⟩
  unfold heure_conversion
  rw [hp]
  have hw : int8_of_int (int8_of_int h - 1) = h - 1 := by
    unfold int8_of_int
    omega
  show some (toString (int8_of_int (int8_of_int h - 1))) = some (toString (h - 1))
  rw [hw]

/-- Witness for C9: the conversion at the boundary hour `24`. -/
theorem heure_conversion_spec_witness :
    heure_conversion "24" = some (toString ((24 : Int) - 1)) ∧
      0 ≤ (24 : Int) - 1 ∧ (24 : Int) - 1 ≤ 23 :=
  heure_conversion_spec "24" 24 (by decide) (by norm_num) (by norm_num)

/-- C1 fails on the code: `blobl_func` (and `illustrate_pdb`) compute
their results through their own loop and arithmetic, so TempsMemoire.py
is not free of from-scratch computation. -/
theorem noFromScratch_counterexample :
    ¬ (noFromScratch pandasScript ∧ noFromScratch tempsScript) :=
  fun h => absurd h.2.1 (by decide)

/-- C1 amended: neither script has a top-level loop, and no authored
function computes through its own loop or arithmetic except the two
debugger demonstrations `illustrate_pdb` and `blobl_func` of
TempsMemoire.py. -/
theorem noFromScratch_amended :
    Py.Stmt.ownComputeFuncsList pandasScript = [] ∧
    Py.Stmt.ownComputeFuncsList tempsScript = ["illustrate_pdb", "blobl_func"] ∧
    Py.Stmt.topLoopCountList pandasScript = 0 ∧
    Py.Stmt.topLoopCountList tempsScript = 0 :=
  ⟨rfl, rfl, rfl, rfl⟩

/-- C3: neither script contains a single `try`/`except` statement, so no
exception handler, recovery or retry intercepts a library failure: the
first failing step aborts execution with the library's own exception. -/
theorem no_exception_handlers :
    Py.Stmt.tryCountList pandasScript = 0 ∧ Py.Stmt.tryCountList tempsScript = 0 :=
  ⟨rfl, rfl⟩

/-- C4 fails on the code: step 99 of Pandas.py mutates the dataframe
`df_titanic` in place (`df_titanic['AgeClass'] = pd.cut(...)`, line 497)
and the separate next step reads `df_titanic['AgeClass']` (line 498). -/
theorem noMutateThenRead_counterexample :
    ¬ (noMutateThenRead pandasScript ∧ noMutateThenRead tempsScript) :=
  fun h => h.1 ⟨99, 100, "df_titanic", by decide, by decide, by decide, by decide⟩

/-- C4 amended: the scripts do mutate shared state read by later steps,
but every mutated resource is one of the library-global configuration
settings (the pandas display options, the seaborn palette, the osmnx
settings), the in-memory dataframes/series, graph, map and chart
objects held in script variables, or the function-local accumulator
`answer`. -/
theorem mutated_resources_enumerated :
    Py.dedupStr (Py.Stmt.mutsOfList pandasScript) =
      ["pd.options.display.max_rows", "sns.palette", "df_titanic_raw",
       "df_titanic", "polution_df", "polution_ts",
       "pd.options.display.max_columns", "df_bikes", "df_bike2",
       "df_dtp_area", "df_dtp_pop", "fr_chart.title", "gd", "fr_chart"] ∧
    Py.dedupStr (Py.Stmt.mutsOfList tempsScript) =
      ["G", "map_osm", "ox.settings", "answer"] :=
  ⟨rfl, rfl⟩

/-- C5 fails on the code: TempsMemoire.py crosses a channel outside
local file reads, fixed-URL downloads and display rendering — the
osmnx calls `ox.graph_from_place` and `ox.utils.geocode` query
OpenStreetMap web services whose URLs appear nowhere in the repository. -/
theorem channels_counterexample :
    ¬ (channelsWithin pandasScript specChannels ∧
       channelsWithin tempsScript specChannels) :=
  fun h => absurd (h.2 Py.Eff.netQuery (by decide)) (by decide)

/-- C5 amended: Pandas.py stays within local file reads, fixed-URL
downloads and display rendering; TempsMemoire.py additionally issues
OpenStreetMap network queries (exactly through `ox.graph_from_place`
and `ox.utils.geocode`) and reads console input (exactly through the
`pdb.set_trace` debugger pause). -/
theorem channels_enumerated :
    channelsWithin pandasScript specChannels ∧
    channelsWithin tempsScript
      (specChannels ++ [Py.Eff.netQuery, Py.Eff.consoleInput]) ∧
    Py.dedupStr (Py.Stmt.callersOfList Py.Eff.netQuery tempsScript) =
      ["ox.graph_from_place", "ox.utils.geocode"] ∧
    Py.dedupStr (Py.Stmt.callersOfList Py.Eff.consoleInput tempsScript) =
      ["pdb.set_trace"] ∧
    Py.dedupStr (Py.Stmt.callersOfList Py.Eff.netQuery pandasScript) = [] ∧
    Py.dedupStr (Py.Stmt.callersOfList Py.Eff.consoleInput pandasScript) = [] :=
  ⟨by decide, by decide, rfl, rfl, rfl, rfl⟩

/-- C6: the sparse-matrix / graph-adjacency section of TempsMemoire.py
defines no function or class, has no branch, loop or `try`/`except`,
and calls no script-authored function: every call of the section is a
call into a pre-built library routine, and no error handling or failure
semantics is added to what those libraries provide. -/
theorem sparse_section_library_only :
    Py.Stmt.funcNamesList tempsSparseGraph = [] ∧
    Py.Stmt.ifCountList tempsSparseGraph = 0 ∧
    Py.Stmt.loopCountList tempsSparseGraph = 0 ∧
    Py.Stmt.tryCountList tempsSparseGraph = 0 ∧
    Py.Stmt.classCountList tempsSparseGraph = 0 ∧
    Py.Stmt.authoredCallsList
      (Py.Stmt.funcNamesList pandasScript ++ Py.Stmt.funcNamesList tempsScript)
      tempsSparseGraph = [] :=
  ⟨rfl, rfl, rfl, rfl, rfl, rfl⟩

/-- C7 fails on the code: Pandas.py persists data to local disk — its
very first computational step, `download(url, "./titanic.csv",
replace=False)`, writes the downloaded dataset to a file. -/
theorem persistsData_counterexample :
    ¬ ((¬ persistsData pandasScript) ∧ (¬ persistsData tempsScript) ∧
       Py.Stmt.classCountList pandasScript = 0 ∧
       Py.Stmt.classCountList tempsScript = 0) :=
  fun h => h.1 (by decide)

/-- C7 amended: neither script defines a custom entity (no class
definitions), and the only steps persisting data to disk are the
dataset downloads and the pygal chart render of Pandas.py and the
cached OpenStreetMap graph download of TempsMemoire.py. -/
theorem persisting_steps_enumerated :
    Py.dedupStr (Py.Stmt.callersOfList Py.Eff.fileWrite pandasScript) =
      ["download", "fr_chart.render_in_browser"] ∧
    Py.dedupStr (Py.Stmt.callersOfList Py.Eff.fileWrite tempsScript) =
      ["ox.graph_from_place"] ∧
    Py.Stmt.classCountList pandasScript = 0 ∧
    Py.Stmt.classCountList tempsScript = 0 :=
  ⟨rfl, rfl, rfl, rfl⟩

/-- C8 fails on the code: Pandas.py is not straight-line — its
departement-map cell branches on `display is "ratio_accident"` (an
`if`/`else` both of whose branches are nonempty, so steps are skipped
whichever way it evaluates), and TempsMemoire.py repeats steps in the
loop of `blobl_func`. -/
theorem linearOnce_counterexample :
    ¬ (linearOnce pandasScript ∧ linearOnce tempsScript) ∧
    Py.Stmt.skipsSteps (Py.stmtAt pandasScript 281) = true :=
  ⟨fun h => absurd h.1.1 (by decide), by decide⟩

/-- C8 amended: execution is linear except for the two display
conditionals at the end of Pandas.py and the single loop of
TempsMemoire.py, which lies inside the body of `blobl_func` (no loop is
reached at top level). -/
theorem linearOnce_amended :
    Py.Stmt.ifCountList pandasScript = 2 ∧
    Py.Stmt.loopCountList pandasScript = 0 ∧
    Py.Stmt.ifCountList tempsScript = 0 ∧
    Py.Stmt.loopCountList tempsScript = 1 ∧
    Py.Stmt.loopCountList tempsDebug = 1 ∧
    Py.Stmt.topLoopCountList tempsScript = 0 :=
  ⟨rfl, rfl, rfl, rfl, rfl, rfl⟩
